/-
Verification of the tabular transformations in `nyc_study.py` (NYC income
versus ethnicity study).

Modelling conventions:
* A data frame row is an element of an arbitrary type `α`; a named numeric
  column is an accessor `α → ℚ` (pandas numeric cells are modelled as
  rationals; a possibly-missing numeric column is `α → Option ℚ`, with
  `none` playing the role of NaN, which compares false against every bound).
* A data frame is modelled column-wise as `List (String × List α)` (header
  name paired with the column's cells) where column structure matters
  (projection / rename steps), and row-wise as `List α` where only row
  filtering and derived columns matter.
* Numpy floating-point division, which yields `inf` / `-inf` / `nan` on a
  zero denominator instead of raising, is modelled by the carrier `NumVal`.
* The filesystem used by the CSV cache is an association list from paths to
  stored tables, threaded explicitly.
-/
import Mathlib

set_option autoImplicit false

namespace NycStudy

/-! ## Subset-and-percentage transform (`create_subset`, `determine_percentage`) -/

/-- Model of `determine_percentage` from `nyc_study.py`: the fraction of the numerator
over the sum of the two arguments. -/
def determine_percentage (numerator other : ℚ) : ℚ :=
  numerator / (numerator + other)

/-- Model of `create_subset` from `nyc_study.py`: retain only the rows where the value
in the first or in the second count column is greater than zero, then append
two percentage columns: the fraction of the first count over the sum of both,
and one minus that fraction.  Rows are `α`; each output entry pairs the
retained row with its two derived percentage cells. -/
def create_subset {α : Type} (data_frame : List α)
    (count_column_1 count_column_2 : α → ℚ) : List (α × ℚ × ℚ) :=
  let target_value : ℚ := 0
  let subset := data_frame.filter fun r =>
    decide (target_value < count_column_1 r) || decide (target_value < count_column_2 r)
  subset.map fun r =>
    let p1 := determine_percentage (count_column_1 r) (count_column_2 r)
    (r, p1, 1 - p1)

/-- Concrete demographic-style rows for evaluating the transform: pairs of
(count 1, count 2). -/
def sampleCounts : List (ℚ × ℚ) :=
  [(0, 100), (50, 50), (0, 0), (3, 1)]

/-! ## Outlier removal (`remove_outliers`) -/

/-- Insert a rational into an already sorted list, keeping it sorted. -/
def insertSorted (x : ℚ) : List ℚ → List ℚ
  | [] => [x]
  | y :: ys => if x ≤ y then x :: y :: ys else y :: insertSorted x ys

/-- Sort a list of rationals into ascending order (insertion sort). -/
def sortQ (values : List ℚ) : List ℚ :=
  values.foldr insertSorted []

/-- Model of `numpy.percentile` with the default linear interpolation: sort the data,
take the fractional rank `p / 100 * (n - 1)`, and linearly interpolate
between the neighbouring order statistics. -/
def percentile (values : List ℚ) (p : ℚ) : ℚ :=
  let sorted := sortQ values
  let n := sorted.length
  let rank := p / 100 * ((n : ℚ) - 1)
  let lower := ⌊rank⌋
  let frac := rank - (lower : ℚ)
  let lo := sorted.getD lower.toNat 0
  let hi := sorted.getD (lower.toNat + 1) lo
  lo + frac * (hi - lo)

/-- Model of `remove_outliers` from `nyc_study.py`: compute the 25th and 75th
percentiles of the non-missing values of the target column (pandas `dropna`
is `filterMap`), derive the Tukey fences at 1.5 interquartile ranges, and
retain the rows whose target value lies within the fences.  A missing value
(`none`, playing NaN's role) compares false against both bounds and is
dropped. -/
def remove_outliers {α : Type} (data_frame : List α)
    (column_name : α → Option ℚ) : List α :=
  let q75 := percentile (data_frame.filterMap column_name) 75
  let q25 := percentile (data_frame.filterMap column_name) 25
  let iqr := q75 - q25
  let distance : ℚ := 3 / 2
  let minimum := q25 - iqr * distance
  let maximum := q75 + iqr * distance
  data_frame.filter fun r =>
    match column_name r with
    | some v => decide (minimum ≤ v) && decide (v ≤ maximum)
    | none => false

/-- Concrete rows (each row is its own optional target value) for evaluating
outlier removal; 1000 is an outlier and the `none` row is missing. -/
def sampleOutlierRows : List (Option ℚ) :=
  [some 10, some 20, none, some 30, some 1000]

/-! ## Column-wise data frames: projection and rename -/

/-- A data frame seen column-wise: each entry is a column name with its
cells.  Duplicate names can occur (pandas allows them, and the demographic
mapping produces one). -/
abbrev Frame (α : Type) : Type := List (String × List α)

/-- Cells of the first column of `df` named `k` (empty when no such column). -/
def getCol {α : Type} (df : Frame α) (k : String) : List α :=
  ((df.find? fun c => c.1 == k).map Prod.snd).getD []

/-- pandas `df[keys]`: raises a `KeyError` when any requested column name is
absent from the frame; otherwise returns, in request order, every column
bearing each requested name. -/
def selectColumns {α : Type} (df : Frame α) (keys : List String) :
    Except String (Frame α) :=
  if keys.all (fun k => df.any fun c => c.1 == k) then
    .ok (keys.map (fun k => df.filter fun c => c.1 == k)).flatten
  else
    .error "KeyError"

/-- pandas `df.rename(columns=m)`: a column whose name is a key of the
mapping is renamed to the mapped value; every other column is untouched. -/
def renameColumns {α : Type} (m : List (String × String)) (df : Frame α) :
    Frame α :=
  df.map fun c =>
    match m.find? (fun p => p.1 == c.1) with
    | some p => (p.2, c.2)
    | none => c

/-- The shared idiom `df = df[list(column_map.keys())]` followed by
`df = df.rename(index=str, columns=column_map)` of
`modify_demographic_data`, `modify_income_data_with_agi` and
`modify_income_data_without_agi`. -/
def projectRename {α : Type} (m : List (String × String)) (df : Frame α) :
    Except String (Frame α) :=
  (selectColumns df (m.map Prod.fst)).map (renameColumns m)

/-- The `column_map` dictionary of `modify_demographic_data`, in insertion
order.  Note the two sources mapped to `pcnt_other`. -/
def demographic_column_map : List (String × String) :=
  [("JURISDICTION NAME", "zip_code"),
   ("COUNT PARTICIPANTS", "participants"),
   ("COUNT PACIFIC ISLANDER", "islander"),
   ("PERCENT PACIFIC ISLANDER", "pcnt_islander"),
   ("COUNT HISPANIC LATINO", "latino"),
   ("PERCENT HISPANIC LATINO", "pcnt_latino"),
   ("COUNT AMERICAN INDIAN", "native"),
   ("PERCENT AMERICAN INDIAN", "pcnt_native"),
   ("COUNT ASIAN NON HISPANIC", "asian"),
   ("PERCENT ASIAN NON HISPANIC", "pcnt_asian"),
   ("COUNT WHITE NON HISPANIC", "caucasian"),
   ("PERCENT WHITE NON HISPANIC", "pcnt_caucasian"),
   ("COUNT BLACK NON HISPANIC", "african"),
   ("PERCENT BLACK NON HISPANIC", "pcnt_african"),
   ("COUNT OTHER ETHNICITY", "other"),
   ("PERCENT OTHER ETHNICITY", "pcnt_other"),
   ("COUNT ETHNICITY UNKNOWN", "unknown"),
   ("PERCENT ETHNICITY UNKNOWN", "pcnt_other"),
   ("COUNT ETHNICITY TOTAL", "total"),
   ("PERCENT ETHNICITY TOTAL", "pcnt_total")]

/-- Model of `modify_demographic_data` from `nyc_study.py`: keep only the columns that
are keys of `demographic_column_map` and rename them per the map. -/
def modify_demographic_data {α : Type} (df : Frame α) :
    Except String (Frame α) :=
  projectRename demographic_column_map df

/-- A concrete demographic frame holding every mapped source column, each
with a single zero cell. -/
def sampleDemographicFrame : Frame ℚ :=
  demographic_column_map.map fun p => (p.1, [0])

/-! ## Numpy float values and the income transforms -/

/-- A numpy floating-point cell as the income pipeline can produce it: a
finite rational, an infinity of either sign, or NaN. -/
inductive NumVal : Type
  | fin : ℚ → NumVal
  | inf : NumVal
  | neginf : NumVal
  | nan : NumVal
  deriving DecidableEq

/-- Round a rational to the nearest integer, ties to even (numpy rounding). -/
def roundHalfEven (q : ℚ) : ℤ :=
  let f := ⌊q⌋
  let frac := q - (f : ℚ)
  if frac < 1 / 2 then f
  else if 1 / 2 < frac then f + 1
  else if f % 2 = 0 then f else f + 1

/-- numpy `round(x, 2)` on a finite value: two decimal places, ties to even. -/
def np_round2 (q : ℚ) : ℚ :=
  (roundHalfEven (q * 100) : ℚ) / 100

/-- numpy float division: a zero denominator yields `inf`, `-inf` or `nan`
according to the numerator's sign instead of raising an error. -/
def npDivide (a b : ℚ) : NumVal :=
  if b = 0 then
    if 0 < a then .inf else if a < 0 then .neginf else .nan
  else .fin (a / b)

/-- numpy `round(_, 2)` lifted to float cells: `inf`, `-inf` and `nan` round
to themselves. -/
def npRound2 : NumVal → NumVal
  | .fin q => .fin (np_round2 q)
  | .inf => .inf
  | .neginf => .neginf
  | .nan => .nan

/-- One cell of the derived average-income column of
`modify_income_data_without_agi`: `np.round(total * 1000. / count, 2)`. -/
def average_income_value (total count : ℚ) : NumVal :=
  npRound2 (npDivide (total * 1000) count)

/-- The `column_map` dictionary of `modify_income_data_without_agi`, in
insertion order. -/
def income_no_agi_column_map : List (String × String) :=
  [("ZIPCODE", "zip_code"),
   ("N02650", "number_of_returns"),
   ("A02650", "total_income_thsnds")]

/-- Model of `modify_income_data_without_agi` from `nyc_study.py`: keep and rename the
three mapped columns, then append the derived `average_income` column
`np.round(total_income_thsnds * 1000. / number_of_returns, 2)` (pandas
assignment of a new column appends it after the existing ones). -/
def modify_income_data_without_agi (df : Frame ℚ) :
    Except String (Frame NumVal) :=
  (projectRename income_no_agi_column_map df).map fun t =>
    t.map (fun c => (c.1, c.2.map NumVal.fin))
      ++ [("average_income",
            List.zipWith average_income_value
              (getCol t "total_income_thsnds") (getCol t "number_of_returns"))]

/-- A concrete income frame: one ZIP row with 10 returns and 500 thousand
dollars of total income. -/
def sampleIncomeFrame : Frame ℚ :=
  [("ZIPCODE", [10001]), ("N02650", [10]), ("A02650", [500])]

/-- What `modify_income_data_without_agi` produces on `sampleIncomeFrame`:
the three renamed columns and the derived average income 50000.00. -/
def sampleIncomeResult : Frame NumVal :=
  [("zip_code", [NumVal.fin 10001]),
   ("number_of_returns", [NumVal.fin 10]),
   ("total_income_thsnds", [NumVal.fin 500]),
   ("average_income", [NumVal.fin 50000])]

/-- A concrete income frame whose single row has a zero return count. -/
def sampleZeroReturnFrame : Frame ℚ :=
  [("ZIPCODE", [10002]), ("N02650", [0]), ("A02650", [500])]

/-! ## AGI value-code substitution (`modify_income_data_with_agi`) -/

/-- A cell of the AGI-limit column: initially a numeric code, a descriptive
string after substitution. -/
inductive Cell : Type
  | num : ℚ → Cell
  | str : String → Cell
  deriving DecidableEq

/-- The `value_map` dictionary of `modify_income_data_with_agi`, in insertion
order. -/
def agi_value_map : List (ℚ × String) :=
  [(1, "$25,000"), (2, "$50,000"), (3, "$75,000"),
   (4, "$100,000"), (5, "$200,000"), (6, "$infinity")]

/-- pandas `series.replace(key, label)` on one cell: a numeric cell equal to
the key becomes the label; every other cell is unchanged. -/
def replaceCell (key : ℚ) (label : String) : Cell → Cell
  | .num q => if q = key then .str label else .num q
  | .str s => .str s

/-- The substitution loop of `modify_income_data_with_agi`:
`for key in value_map.keys(): data_frame[agi_column].replace(key,
value_map.get(key), inplace=True)` applied to the AGI-limit column. -/
def replace_agi_values (column : List Cell) : List Cell :=
  agi_value_map.foldl (fun c p => c.map (replaceCell p.1 p.2)) column

/-- The cumulative effect of the substitution loop on a single cell. -/
def replaceAgiCell (c : Cell) : Cell :=
  agi_value_map.foldl (fun c p => replaceCell p.1 p.2 c) c

/-! ## Filesystem cache (`get_ny_common`, `isolate`) -/

/-- The filesystem as the CSV cache sees it: an association list from paths
to stored tables (`to_csv` prepends, `read_csv` finds the newest entry). -/
abbrev FileSystem (ρ : Type) : Type := List (String × List ρ)

/-- Model of `pd.read_csv`: the table stored at the path, `none` when absent. -/
def read_csv {ρ : Type} (fs : FileSystem ρ) (path : String) : Option (List ρ) :=
  (fs.find? fun e => e.1 == path).map Prod.snd

/-- Model of `DataFrame.to_csv`: store the table at the path. -/
def to_csv {ρ : Type} (fs : FileSystem ρ) (path : String) (t : List ρ) :
    FileSystem ρ :=
  (path, t) :: fs

/-- Model of `isolate` from `nyc_study.py`: keep the rows whose STATE field equals the
target state, write the reduced table to the output path, and return it. -/
def isolate {ρ : Type} (fs : FileSystem ρ) (output_filepath : String)
    (data_frame : List ρ) (state : ρ → String) (target_state : String) :
    List ρ × FileSystem ρ :=
  let reduced_data_frame := data_frame.filter fun r => state r == target_state
  (reduced_data_frame, to_csv fs output_filepath reduced_data_frame)

/-- Model of `get_ny_common` from `nyc_study.py`: when the reduced (state-filtered)
file already exists it is read back and the filesystem is untouched;
otherwise the nationwide file is read, filtered to STATE == 'NY' by
`isolate`, and written to the reduced path.  A missing nationwide file
propagates pandas' file-not-found failure. -/
def get_ny_common {ρ : Type} (state : ρ → String) (fs : FileSystem ρ)
    (reduced_filepath whole_filepath : String) :
    Except String (List ρ × FileSystem ρ) :=
  match read_csv fs reduced_filepath with
  | some data_frame => .ok (data_frame, fs)
  | none =>
      match read_csv fs whole_filepath with
      | some whole => .ok (isolate fs reduced_filepath whole state "NY")
      | none => .error "FileNotFoundError"

/-- A concrete filesystem holding only the nationwide file; rows carry just
their STATE value. -/
def sampleFS : FileSystem String :=
  [("15zpallnoagi.csv", ["NY", "CA", "NY"])]

end NycStudy

deriving instance DecidableEq for Except

namespace NycStudy

/-! ## Theorems for the subset-and-percentage transform -/

/-- C1: on an input whose two count columns are non-negative, `create_subset`
returns exactly the rows where at least one count is strictly positive, and on
every returned row the first added percentage cell equals
`count1 / (count1 + count2)`, the second equals one minus the first, and the
two sum to exactly 1 (the rational model has no floating-point error). -/
theorem create_subset_spec {α : Type} (df : List α) (c1 c2 : α → ℚ)
    (h : ∀ r ∈ df, 0 ≤ c1 r ∧ 0 ≤ c2 r) :
    (create_subset df c1 c2).map Prod.fst
        = df.filter (fun r => decide (0 < c1 r) || decide (0 < c2 r))
      ∧ ∀ x ∈ create_subset df c1 c2,
          x.2.1 = c1 x.1 / (c1 x.1 + c2 x.1)
            ∧ x.2.2 = 1 - x.2.1
            ∧ x.2.1 + x.2.2 = 1 := by
  constructor
  · simp only [create_subset, List.map_map]
    exact List.map_id _
  · intro x hx
    simp only [create_subset, List.mem_map] at hx
    obtain ⟨r, hr, rfl⟩ := hx
    exact ⟨rfl, rfl, by ring⟩

/-- Witness for C1 at a concrete table: rows (0,100), (50,50), (0,0), (3,1);
the all-zero row is dropped and the fraction cells are as claimed. -/
theorem create_subset_spec_witness :
    (∀ r ∈ sampleCounts, 0 ≤ r.1 ∧ 0 ≤ r.2)
      ∧ ((create_subset sampleCounts Prod.fst Prod.snd).map Prod.fst
            = sampleCounts.filter (fun r => decide (0 < r.1) || decide (0 < r.2))
          ∧ ∀ x ∈ create_subset sampleCounts Prod.fst Prod.snd,
              x.2.1 = x.1.1 / (x.1.1 + x.1.2)
                ∧ x.2.2 = 1 - x.2.1
                ∧ x.2.1 + x.2.2 = 1) :=
  ⟨by decide, create_subset_spec sampleCounts Prod.fst Prod.snd (by decide)⟩

/-- C5: under non-negative counts, every row that reaches the fraction
computation (i.e. every row surviving the positivity filter inside
`create_subset`) has a strictly positive denominator `count1 + count2`, and a
row whose two counts are both zero never survives the filter. -/
theorem create_subset_denominator_pos {α : Type} (df : List α) (c1 c2 : α → ℚ)
    (h : ∀ r ∈ df, 0 ≤ c1 r ∧ 0 ≤ c2 r) :
    (∀ r ∈ df.filter (fun r => decide (0 < c1 r) || decide (0 < c2 r)),
        0 < c1 r + c2 r)
      ∧ (∀ x ∈ create_subset df c1 c2, 0 < c1 x.1 + c2 x.1)
      ∧ ∀ r ∈ df, c1 r = 0 → c2 r = 0 →
          r ∉ df.filter (fun r => decide (0 < c1 r) || decide (0 < c2 r)) := by
  have key : ∀ r ∈ df.filter (fun r => decide (0 < c1 r) || decide (0 < c2 r)),
      0 < c1 r + c2 r := by
    intro r hr
    rw [List.mem_filter] at hr
    obtain ⟨hmem, hpred⟩ := hr
    have h1 := (h r hmem).1
    have h2 := (h r hmem).2
    rcases Bool.or_eq_true_iff.mp hpred with hp | hp
    · have := of_decide_eq_true hp; linarith
    · have := of_decide_eq_true hp; linarith
  refine ⟨key, ?_, ?_⟩
  · intro x hx
    simp only [create_subset, List.mem_map] at hx
    obtain ⟨r, hr, rfl⟩ := hx
    exact key r hr
  · intro r hmem h1 h2 hcontra
    rw [List.mem_filter] at hcontra
    rcases Bool.or_eq_true_iff.mp hcontra.2 with hp | hp
    · exact absurd (of_decide_eq_true hp) (by rw [h1]; exact lt_irrefl 0)
    · exact absurd (of_decide_eq_true hp) (by rw [h2]; exact lt_irrefl 0)

/-- Witness for C5 at the concrete table `sampleCounts`. -/
theorem create_subset_denominator_pos_witness :
    (∀ r ∈ sampleCounts, 0 ≤ r.1 ∧ 0 ≤ r.2)
      ∧ ((∀ r ∈ sampleCounts.filter (fun r => decide (0 < r.1) || decide (0 < r.2)),
            0 < r.1 + r.2)
          ∧ (∀ x ∈ create_subset sampleCounts Prod.fst Prod.snd, 0 < x.1.1 + x.1.2)
          ∧ ∀ r ∈ sampleCounts, r.1 = 0 → r.2 = 0 →
              r ∉ sampleCounts.filter (fun r => decide (0 < r.1) || decide (0 < r.2))) :=
  ⟨by decide, create_subset_denominator_pos sampleCounts Prod.fst Prod.snd (by decide)⟩

/-- C2: `remove_outliers` keeps the input's relative row order (its result is
a sublist of the input), and a row is retained exactly when its target value
is present and lies within the Tukey fences
`[Q1 - 1.5*IQR, Q3 + 1.5*IQR]` computed from the 25th and 75th percentiles of
the input table's non-missing target values; rows with a missing target value
are never retained. -/
theorem remove_outliers_spec {α : Type} (df : List α) (col : α → Option ℚ)
    (h : df.filterMap col ≠ []) :
    (remove_outliers df col).Sublist df
      ∧ (∀ r, r ∈ remove_outliers df col ↔
          r ∈ df ∧ ∃ v, col r = some v
            ∧ percentile (df.filterMap col) 25
                - (percentile (df.filterMap col) 75
                    - percentile (df.filterMap col) 25) * (3 / 2) ≤ v
            ∧ v ≤ percentile (df.filterMap col) 75
                + (percentile (df.filterMap col) 75
                    - percentile (df.filterMap col) 25) * (3 / 2))
      ∧ ∀ r ∈ remove_outliers df col, col r ≠ none := by
  refine ⟨List.filter_sublist _, ?_, ?_⟩
  · intro r
    simp only [remove_outliers, List.mem_filter]
    constructor
    · rintro ⟨hmem, hpred⟩
      refine ⟨hmem, ?_⟩
      cases hcol : col r with
      | none => rw [hcol] at hpred; simp at hpred
      | some v =>
        rw [hcol] at hpred
        simp only [Bool.and_eq_true, decide_eq_true_eq] at hpred
        exact ⟨v, rfl, by linarith [hpred.1], by linarith [hpred.2]⟩
    · rintro ⟨hmem, v, hcol, h1, h2⟩
      refine ⟨hmem, ?_⟩
      rw [hcol]
      simp only [Bool.and_eq_true, decide_eq_true_eq]
      exact ⟨by linarith, by linarith⟩
  · intro r hr hnone
    simp only [remove_outliers, List.mem_filter] at hr
    rw [hnone] at hr
    simp at hr

/-- Witness for C2 at the concrete table `sampleOutlierRows` (the target
column of a row is the row itself). -/
theorem remove_outliers_spec_witness :
    (sampleOutlierRows.filterMap id ≠ [])
      ∧ ((remove_outliers sampleOutlierRows id).Sublist sampleOutlierRows
          ∧ (∀ r, r ∈ remove_outliers sampleOutlierRows id ↔
              r ∈ sampleOutlierRows ∧ ∃ v, id r = some v
                ∧ percentile (sampleOutlierRows.filterMap id) 25
                    - (percentile (sampleOutlierRows.filterMap id) 75
                        - percentile (sampleOutlierRows.filterMap id) 25) * (3 / 2) ≤ v
                ∧ v ≤ percentile (sampleOutlierRows.filterMap id) 75
                    + (percentile (sampleOutlierRows.filterMap id) 75
                        - percentile (sampleOutlierRows.filterMap id) 25) * (3 / 2))
          ∧ ∀ r ∈ remove_outliers sampleOutlierRows id, id r ≠ none) :=
  ⟨by decide, remove_outliers_spec sampleOutlierRows id (by decide)⟩

/-! ## Helper lemmas about projection and rename -/

/-- With pairwise distinct column names, filtering a frame for one present
name yields exactly the singleton column `getCol` finds. -/
theorem filter_name_singleton {α : Type} (df : Frame α) (k : String)
    (hnd : (df.map Prod.fst).Nodup) (hmem : ∃ c ∈ df, c.1 = k) :
    df.filter (fun c => c.1 == k) = [(k, getCol df k)] := by
  induction df with
  | nil => simp at hmem
  | cons c cs ih =>
    simp only [List.map_cons, List.nodup_cons] at hnd
    by_cases hck : c.1 = k
    · have hfilter : cs.filter (fun c => c.1 == k) = [] := by
        rw [List.filter_eq_nil_iff]
        intro d hd hdk
        rw [beq_iff_eq] at hdk
        exact hnd.1 (by rw [hck, ← hdk]; exact List.mem_map_of_mem Prod.fst hd)
      rw [List.filter_cons_of_pos (by rw [beq_iff_eq]; exact hck), hfilter]
      have hget : getCol (c :: cs) k = c.2 := by
        simp [getCol, List.find?_cons_of_pos, beq_iff_eq, hck]
      rw [hget, ← hck]
    · have hmem' : ∃ d ∈ cs, d.1 = k := by
        obtain ⟨d, hd, hdk⟩ := hmem
        rcases List.mem_cons.mp hd with rfl | hd'
        · exact absurd hdk hck
        · exact ⟨d, hd', hdk⟩
      rw [List.filter_cons_of_neg (by simp [hck]), ih hnd.2 hmem']
      have hget : getCol (c :: cs) k = getCol cs k := by
        simp [getCol, List.find?_cons_of_neg, hck]
      rw [hget]

/-- Flattening a list of singletons is a map. -/
theorem flatten_map_singleton {α β : Type} (f : α → β) (l : List α) :
    (l.map fun a => [f a]).flatten = l.map f := by
  induction l with
  | nil => rfl
  | cons a l ih => simp [ih]

/-- With pairwise distinct mapping sources, `find?` on an entry's own source
returns that entry. -/
theorem find?_first_source (m : List (String × String))
    (hnd : (m.map Prod.fst).Nodup) (p : String × String) (hp : p ∈ m) :
    m.find? (fun q => q.1 == p.1) = some p := by
  induction m with
  | nil => simp at hp
  | cons q qs ih =>
    simp only [List.map_cons, List.nodup_cons] at hnd
    rcases List.mem_cons.mp hp with rfl | hp'
    · exact List.find?_cons_of_pos _ (by simp)
    · have hqp : q.1 ≠ p.1 := fun h =>
        hnd.1 (by rw [h]; exact List.mem_map_of_mem Prod.fst hp')
      have hstep : List.find? (fun q' => q'.1 == p.1) (q :: qs)
          = List.find? (fun q' => q'.1 == p.1) qs :=
        List.find?_cons_of_neg qs (by simpa using hqp)
      rw [hstep, ih hnd.2 hp']

/-- Under distinct names everywhere and all sources present, the
projection/rename idiom returns exactly the mapped columns, in mapping
insertion order, renamed, cells untouched. -/
theorem projectRename_ok_of_nodup {α : Type} (m : List (String × String))
    (df : Frame α) (hm : (m.map Prod.fst).Nodup)
    (hdf : (df.map Prod.fst).Nodup)
    (hall : ∀ k ∈ m.map Prod.fst, ∃ c ∈ df, c.1 = k) :
    projectRename m df = Except.ok (m.map fun p => (p.2, getCol df p.1)) := by
  have hcond : ((m.map Prod.fst).all fun k => df.any fun c => c.1 == k) = true := by
    rw [List.all_eq_true]
    intro k hk
    rw [List.any_eq_true]
    obtain ⟨c, hc, hck⟩ := hall k hk
    exact ⟨c, hc, by simp [hck]⟩
  have hsel : selectColumns df (m.map Prod.fst)
      = Except.ok ((m.map Prod.fst).map fun k => (k, getCol df k)) := by
    unfold selectColumns
    rw [if_pos hcond]
    have : (m.map Prod.fst).map (fun k => df.filter fun c => c.1 == k)
        = (m.map Prod.fst).map fun k => [(k, getCol df k)] :=
      List.map_congr_left fun k hk => filter_name_singleton df k hdf (hall k hk)
    rw [this, flatten_map_singleton]
  unfold projectRename
  rw [hsel]
  show Except.ok (renameColumns m ((m.map Prod.fst).map fun k => (k, getCol df k))) = _
  rw [List.map_map]
  unfold renameColumns
  rw [List.map_map]
  refine congrArg Except.ok (List.map_congr_left fun p hp => ?_)
  show (match m.find? fun q => q.1 == p.1 with
        | some q => (q.2, getCol df p.1)
        | none => (p.1, getCol df p.1)) = (p.2, getCol df p.1)
  rw [find?_first_source m hm p hp]

/-- Every column name produced by a successful projection/rename is one of
the mapping's target names (no distinctness assumptions needed). -/
theorem projectRename_ok_names {α : Type} (m : List (String × String))
    (df : Frame α) (t : Frame α) (h : projectRename m df = Except.ok t) :
    ∀ c ∈ t, c.1 ∈ m.map Prod.snd := by
  unfold projectRename selectColumns at h
  by_cases hcond : ((m.map Prod.fst).all fun k => df.any fun c => c.1 == k) = true
  · rw [if_pos hcond] at h
    simp only [Except.map, Except.ok.injEq] at h
    subst h
    intro c hc
    unfold renameColumns at hc
    rw [List.mem_map] at hc
    obtain ⟨c', hc', hcc⟩ := hc
    rw [List.mem_flatten] at hc'
    obtain ⟨l, hl, hcl⟩ := hc'
    rw [List.mem_map] at hl
    obtain ⟨k, hk, rfl⟩ := hl
    have hsrc : c'.1 ∈ m.map Prod.fst := by
      have := (List.mem_filter.mp hcl).2
      rw [beq_iff_eq] at this
      rw [this]
      exact hk
    rw [List.mem_map] at hsrc
    obtain ⟨p, hp, hpk⟩ := hsrc
    cases hfind : m.find? fun q => q.1 == c'.1 with
    | none =>
      rw [List.find?_eq_none] at hfind
      exact absurd (by simp [hpk] : (p.1 == c'.1) = true) (hfind p hp)
    | some q =>
      rw [hfind] at hcc
      have hq : q ∈ m := List.mem_of_find?_eq_some hfind
      rw [← hcc]
      exact List.mem_map_of_mem Prod.snd hq
  · rw [if_neg hcond] at h
    simp [Except.map] at h

/-- C8: the projection/rename step fails with a lookup error exactly when at
least one source name of the mapping is absent from the input frame; when all
sources are present (and the frame and mapping names are free of duplicates),
it returns exactly the mapped columns, in mapping insertion order, renamed
per the mapping, with the cells untouched. -/
theorem projectRename_spec {α : Type} (m : List (String × String))
    (df : Frame α) (hm : (m.map Prod.fst).Nodup)
    (hdf : (df.map Prod.fst).Nodup) :
    (projectRename m df = Except.error "KeyError" ↔
        ∃ k ∈ m.map Prod.fst, ∀ c ∈ df, c.1 ≠ k)
      ∧ ((∀ k ∈ m.map Prod.fst, ∃ c ∈ df, c.1 = k) →
          projectRename m df = Except.ok (m.map fun p => (p.2, getCol df p.1))) := by
  constructor
  · unfold projectRename selectColumns
    by_cases hcond : ((m.map Prod.fst).all fun k => df.any fun c => c.1 == k) = true
    · rw [if_pos hcond]
      constructor
      · intro h
        simp [Except.map] at h
      · rintro ⟨k, hk, habs⟩
        rw [List.all_eq_true] at hcond
        have := hcond k hk
        rw [List.any_eq_true] at this
        obtain ⟨c, hc, hck⟩ := this
        rw [beq_iff_eq] at hck
        exact absurd hck (habs c hc)
    · rw [if_neg hcond]
      constructor
      · intro _
        rw [List.all_eq_true] at hcond
        push_neg at hcond
        obtain ⟨k, hk, hany⟩ := hcond
        refine ⟨k, hk, fun c hc hck => hany ?_⟩
        rw [List.any_eq_true]
        exact ⟨c, hc, by simp [hck]⟩
      · intro _
        rfl
  · exact projectRename_ok_of_nodup m df hm hdf

/-- Witness for C8 at the three-column income mapping and the concrete frame
`sampleIncomeFrame`. -/
theorem projectRename_spec_witness :
    (income_no_agi_column_map.map Prod.fst).Nodup
      ∧ (sampleIncomeFrame.map Prod.fst).Nodup
      ∧ ((projectRename income_no_agi_column_map sampleIncomeFrame
            = Except.error "KeyError" ↔
            ∃ k ∈ income_no_agi_column_map.map Prod.fst,
              ∀ c ∈ sampleIncomeFrame, c.1 ≠ k)
          ∧ ((∀ k ∈ income_no_agi_column_map.map Prod.fst,
                ∃ c ∈ sampleIncomeFrame, c.1 = k) →
              projectRename income_no_agi_column_map sampleIncomeFrame
                = Except.ok (income_no_agi_column_map.map
                    fun p => (p.2, getCol sampleIncomeFrame p.1)))) :=
  ⟨by decide, by decide,
    projectRename_spec income_no_agi_column_map sampleIncomeFrame
      (by decide) (by decide)⟩

/-- C10: the demographic column map sends both 'PERCENT OTHER ETHNICITY' and
'PERCENT ETHNICITY UNKNOWN' to 'pcnt_other'; consequently, on any input frame
with distinct column names that contains all mapped sources, the output of
`modify_demographic_data` carries the name 'pcnt_other' twice and carries no
column named 'pcnt_unknown'. -/
theorem modify_demographic_pcnt_other_collision {α : Type} (df : Frame α)
    (hdf : (df.map Prod.fst).Nodup)
    (hall : ∀ k ∈ demographic_column_map.map Prod.fst, ∃ c ∈ df, c.1 = k) :
    ("PERCENT OTHER ETHNICITY", "pcnt_other") ∈ demographic_column_map
      ∧ ("PERCENT ETHNICITY UNKNOWN", "pcnt_other") ∈ demographic_column_map
      ∧ ∃ t, modify_demographic_data df = Except.ok t
          ∧ (t.map Prod.fst).count "pcnt_other" = 2
          ∧ "pcnt_unknown" ∉ t.map Prod.fst := by
  refine ⟨by decide, by decide,
    demographic_column_map.map fun p => (p.2, getCol df p.1), ?_, ?_, ?_⟩
  · exact projectRename_ok_of_nodup demographic_column_map df (by decide) hdf hall
  · rw [List.map_map]
    show (demographic_column_map.map fun p => p.2).count "pcnt_other" = 2
    decide
  · rw [List.map_map]
    show "pcnt_unknown" ∉ demographic_column_map.map fun p => p.2
    decide

/-- Witness for C10 at the concrete frame `sampleDemographicFrame`. -/
theorem modify_demographic_pcnt_other_collision_witness :
    (sampleDemographicFrame.map Prod.fst).Nodup
      ∧ (∀ k ∈ demographic_column_map.map Prod.fst,
          ∃ c ∈ sampleDemographicFrame, c.1 = k)
      ∧ (("PERCENT OTHER ETHNICITY", "pcnt_other") ∈ demographic_column_map
          ∧ ("PERCENT ETHNICITY UNKNOWN", "pcnt_other") ∈ demographic_column_map
          ∧ ∃ t, modify_demographic_data sampleDemographicFrame = Except.ok t
              ∧ (t.map Prod.fst).count "pcnt_other" = 2
              ∧ "pcnt_unknown" ∉ t.map Prod.fst) :=
  ⟨by decide, by decide,
    modify_demographic_pcnt_other_collision sampleDemographicFrame
      (by decide) (by decide)⟩

/-- C3 counterexample: projection/rename is not idempotent.  On a concrete
frame holding every mapped source column, the first application succeeds, but
a second application of the same step to the produced table does not return
that table (it fails, because the sources were renamed away). -/
theorem modify_demographic_not_idempotent :
    ∃ t, modify_demographic_data sampleDemographicFrame = Except.ok t
      ∧ modify_demographic_data t ≠ Except.ok t := by
  refine ⟨demographic_column_map.map fun p => (p.2, ([0] : List ℚ)), ?_, ?_⟩
  · decide
  · decide

/-- C3 amended: applying the projection/rename step a second time with the
same mapping never returns the projected table again; because every source
name is renamed to a (different) target name, the second application always
fails with a lookup error. -/
theorem modify_demographic_second_application_errors {α : Type}
    (df t : Frame α) (h : modify_demographic_data df = Except.ok t) :
    modify_demographic_data t = Except.error "KeyError" := by
  have hnames : ∀ c ∈ t, c.1 ∈ demographic_column_map.map Prod.snd :=
    projectRename_ok_names demographic_column_map df t h
  unfold modify_demographic_data projectRename selectColumns
  rw [if_neg]
  · rfl
  · intro hall
    rw [List.all_eq_true] at hall
    have h1 := hall "JURISDICTION NAME" (by decide)
    rw [List.any_eq_true] at h1
    obtain ⟨c, hc, hck⟩ := h1
    rw [beq_iff_eq] at hck
    have h2 := hnames c hc
    rw [hck] at h2
    exact absurd h2 (by decide)

/-- Witness for the amended C3 at the concrete frame
`sampleDemographicFrame`. -/
theorem modify_demographic_second_application_errors_witness :
    modify_demographic_data sampleDemographicFrame
        = Except.ok (demographic_column_map.map fun p => (p.2, ([0] : List ℚ)))
      ∧ modify_demographic_data
          (demographic_column_map.map fun p => (p.2, ([0] : List ℚ)))
        = Except.error "KeyError" :=
  ⟨by decide,
    modify_demographic_second_application_errors sampleDemographicFrame
      (demographic_column_map.map fun p => (p.2, ([0] : List ℚ))) (by decide)⟩

/-- Evaluation helper: the average-income cell at total 500 and count 10 is
exactly 50000. -/
theorem average_income_value_500_10 :
    average_income_value 500 10 = NumVal.fin 50000 := by
  have h1 : npDivide (500 * 1000) 10 = NumVal.fin 50000 := by
    unfold npDivide
    rw [if_neg (by norm_num : ¬(10 : ℚ) = 0)]
    simp only [NumVal.fin.injEq]
    norm_num
  unfold average_income_value
  rw [h1]
  show NumVal.fin (np_round2 50000) = NumVal.fin 50000
  unfold np_round2 roundHalfEven
  simp only [NumVal.fin.injEq]
  norm_num

/-- Evaluation helper: the average-income cell at total 500 and count 0 is
positive infinity. -/
theorem average_income_value_500_0 :
    average_income_value 500 0 = NumVal.inf := by
  unfold average_income_value npDivide
  rw [if_pos rfl, if_pos (by norm_num : (0 : ℚ) < 500 * 1000)]
  rfl

/-- Evaluation helper: `modify_income_data_without_agi` on a single-row frame
with symbolic cells (pure column bookkeeping, no arithmetic). -/
theorem modify_income_single_row (z n a : ℚ) :
    modify_income_data_without_agi
        [("ZIPCODE", [z]), ("N02650", [n]), ("A02650", [a])]
      = Except.ok [("zip_code", [NumVal.fin z]),
          ("number_of_returns", [NumVal.fin n]),
          ("total_income_thsnds", [NumVal.fin a]),
          ("average_income", [average_income_value a n])] := by
  rfl

/-- Evaluation helper: the transform on the concrete frame
`sampleIncomeFrame` produces `sampleIncomeResult`. -/
theorem modify_income_sample_eval :
    modify_income_data_without_agi sampleIncomeFrame
      = Except.ok sampleIncomeResult := by
  show modify_income_data_without_agi
      [("ZIPCODE", [(10001 : ℚ)]), ("N02650", [10]), ("A02650", [500])]
    = Except.ok sampleIncomeResult
  rw [modify_income_single_row 10001 10 500, average_income_value_500_10]
  rfl

/-- C4: whenever `modify_income_data_without_agi` succeeds, its appended
`average_income` column is the elementwise
`np.round(total_income_thsnds * 1000 / number_of_returns, 2)` of the
projected columns; on a row with a non-zero return count this is the finite
value `total * 1000 / count` rounded to two decimals, and at return count 10
with total income 500 it is exactly 50000. -/
theorem modify_income_without_agi_average (df : Frame ℚ) (t : Frame NumVal)
    (hok : modify_income_data_without_agi df = Except.ok t)
    (total count : ℚ) (hcount : count ≠ 0) :
    (∃ s, projectRename income_no_agi_column_map df = Except.ok s
        ∧ getCol t "average_income"
            = List.zipWith average_income_value
                (getCol s "total_income_thsnds") (getCol s "number_of_returns"))
      ∧ average_income_value total count
          = NumVal.fin (np_round2 (total * 1000 / count))
      ∧ average_income_value 500 10 = NumVal.fin 50000 := by
  refine ⟨?_, ?_, average_income_value_500_10⟩
  · unfold modify_income_data_without_agi at hok
    cases hpr : projectRename income_no_agi_column_map df with
    | error e => rw [hpr] at hok; simp [Except.map] at hok
    | ok s =>
      rw [hpr] at hok
      simp only [Except.map, Except.ok.injEq] at hok
      subst hok
      refine ⟨s, rfl, ?_⟩
      have hnames : ∀ c ∈ s, c.1 ∈ income_no_agi_column_map.map Prod.snd :=
        projectRename_ok_names _ _ _ hpr
      have hfindnone : (s.map fun c => (c.1, c.2.map NumVal.fin)).find?
          (fun c => c.1 == "average_income") = none := by
        rw [List.find?_eq_none]
        intro c hc
        rw [List.mem_map] at hc
        obtain ⟨c', hc', rfl⟩ := hc
        intro hcontra
        rw [beq_iff_eq] at hcontra
        have hmem := hnames c' hc'
        rw [hcontra] at hmem
        revert hmem
        decide
      unfold getCol
      rw [List.find?_append, hfindnone]
      rfl
  · unfold average_income_value npDivide
    rw [if_neg hcount]
    rfl

/-- Witness for C4 at the concrete frame `sampleIncomeFrame`. -/
theorem modify_income_without_agi_average_witness :
    modify_income_data_without_agi sampleIncomeFrame = Except.ok sampleIncomeResult
      ∧ (10 : ℚ) ≠ 0
      ∧ ((∃ s, projectRename income_no_agi_column_map sampleIncomeFrame
              = Except.ok s
            ∧ getCol sampleIncomeResult "average_income"
                = List.zipWith average_income_value
                    (getCol s "total_income_thsnds") (getCol s "number_of_returns"))
          ∧ average_income_value 500 10
              = NumVal.fin (np_round2 (500 * 1000 / 10))
          ∧ average_income_value 500 10 = NumVal.fin 50000) :=
  ⟨modify_income_sample_eval, by norm_num,
    modify_income_without_agi_average sampleIncomeFrame sampleIncomeResult
      modify_income_sample_eval 500 10 (by norm_num)⟩

/-- C6: dividing by a zero return count does not fail: the average-income
cell is `inf` for positive total income, `-inf` for negative, and `nan` for
zero total income — always one of the three non-finite values; and on a
whole frame with a zero-return row the transform still succeeds, silently
producing an `inf` average-income cell. -/
theorem average_income_zero_returns (total : ℚ) :
    (average_income_value total 0
        = if 0 < total then NumVal.inf
          else if total < 0 then NumVal.neginf else NumVal.nan)
      ∧ (average_income_value total 0 = NumVal.inf
          ∨ average_income_value total 0 = NumVal.neginf
          ∨ average_income_value total 0 = NumVal.nan)
      ∧ modify_income_data_without_agi sampleZeroReturnFrame
          = Except.ok [("zip_code", [NumVal.fin 10002]),
              ("number_of_returns", [NumVal.fin 0]),
              ("total_income_thsnds", [NumVal.fin 500]),
              ("average_income", [NumVal.inf])] := by
  have h : average_income_value total 0
      = if 0 < total then NumVal.inf
        else if total < 0 then NumVal.neginf else NumVal.nan := by
    unfold average_income_value npDivide
    rw [if_pos rfl]
    by_cases hp : 0 < total
    · rw [if_pos (by nlinarith : (0 : ℚ) < total * 1000), if_pos hp]
      rfl
    · by_cases hn : total < 0
      · rw [if_neg (by nlinarith : ¬(0 : ℚ) < total * 1000),
          if_pos (by nlinarith : total * 1000 < 0), if_neg hp, if_pos hn]
        rfl
      · have ht : total = 0 := le_antisymm (not_lt.mp hp) (not_lt.mp hn)
        subst ht
        rw [if_neg (by norm_num), if_neg (by norm_num), if_neg hp, if_neg hn]
        rfl
  refine ⟨h, ?_, ?_⟩
  · rw [h]
    split_ifs <;> simp
  · show modify_income_data_without_agi
        [("ZIPCODE", [(10002 : ℚ)]), ("N02650", [0]), ("A02650", [500])]
      = _
    rw [modify_income_single_row 10002 0 500, average_income_value_500_0]

/-- C7: the AGI value-code substitution loop acts cellwise: codes 1-6 become
the six descriptive labels, any numeric code outside the mapping (such as 99)
passes through unchanged, and string cells are untouched; no error arises. -/
theorem replace_agi_values_spec (column : List Cell) (q : ℚ)
    (hq : q ∉ ([1, 2, 3, 4, 5, 6] : List ℚ)) (s : String) :
    replace_agi_values column = column.map replaceAgiCell
      ∧ replaceAgiCell (Cell.num 1) = Cell.str "$25,000"
      ∧ replaceAgiCell (Cell.num 2) = Cell.str "$50,000"
      ∧ replaceAgiCell (Cell.num 3) = Cell.str "$75,000"
      ∧ replaceAgiCell (Cell.num 4) = Cell.str "$100,000"
      ∧ replaceAgiCell (Cell.num 5) = Cell.str "$200,000"
      ∧ replaceAgiCell (Cell.num 6) = Cell.str "$infinity"
      ∧ replaceAgiCell (Cell.num q) = Cell.num q
      ∧ replaceAgiCell (Cell.str s) = Cell.str s := by
  refine ⟨?_, by decide, by decide, by decide, by decide, by decide, by decide,
    ?_, rfl⟩
  · induction column with
    | nil => rfl
    | cons c cs ih =>
      show replaceAgiCell c :: replace_agi_values cs
          = replaceAgiCell c :: cs.map replaceAgiCell
      rw [ih]
  · simp only [List.mem_cons, List.not_mem_nil, or_false, not_or] at hq
    obtain ⟨h1, h2, h3, h4, h5, h6⟩ := hq
    show replaceCell 6 "$infinity" (replaceCell 5 "$200,000"
        (replaceCell 4 "$100,000" (replaceCell 3 "$75,000"
          (replaceCell 2 "$50,000" (replaceCell 1 "$25,000" (Cell.num q))))))
      = Cell.num q
    simp [replaceCell, h1, h2, h3, h4, h5, h6]

/-- Witness for C7: code 99 is unmapped and passes through. -/
theorem replace_agi_values_spec_witness :
    ((99 : ℚ) ∉ ([1, 2, 3, 4, 5, 6] : List ℚ))
      ∧ (replace_agi_values [Cell.num 1, Cell.num 99]
            = [Cell.num 1, Cell.num 99].map replaceAgiCell
          ∧ replaceAgiCell (Cell.num 1) = Cell.str "$25,000"
          ∧ replaceAgiCell (Cell.num 2) = Cell.str "$50,000"
          ∧ replaceAgiCell (Cell.num 3) = Cell.str "$75,000"
          ∧ replaceAgiCell (Cell.num 4) = Cell.str "$100,000"
          ∧ replaceAgiCell (Cell.num 5) = Cell.str "$200,000"
          ∧ replaceAgiCell (Cell.num 6) = Cell.str "$infinity"
          ∧ replaceAgiCell (Cell.num 99) = Cell.num 99
          ∧ replaceAgiCell (Cell.str "untouched") = Cell.str "untouched") :=
  ⟨by decide,
    replace_agi_values_spec [Cell.num 1, Cell.num 99] 99 (by decide) "untouched"⟩

/-- C9: when the state-filtered cache file exists, `get_ny_common` returns
exactly the stored table and leaves the filesystem unchanged; when it does
not exist (and the nationwide file does), it returns the nationwide rows
whose STATE equals 'NY' and writes that filtered table to the cache path. -/
theorem get_ny_common_spec {ρ : Type} (state : ρ → String) (fs : FileSystem ρ)
    (reduced_filepath whole_filepath : String) :
    (∀ t, read_csv fs reduced_filepath = some t →
        get_ny_common state fs reduced_filepath whole_filepath
          = Except.ok (t, fs))
      ∧ ∀ whole, read_csv fs reduced_filepath = none →
          read_csv fs whole_filepath = some whole →
          get_ny_common state fs reduced_filepath whole_filepath
            = Except.ok (whole.filter (fun r => state r == "NY"),
                to_csv fs reduced_filepath
                  (whole.filter (fun r => state r == "NY"))) := by
  constructor
  · intro t ht
    unfold get_ny_common
    rw [ht]
  · intro whole h1 h2
    unfold get_ny_common
    rw [h1, h2]
    rfl

/-- Witness for C9: both cache branches at the concrete filesystem
`sampleFS` (rows carry just their STATE value). -/
theorem get_ny_common_spec_witness :
    (read_csv sampleFS "ny_no_agi.csv" = none
      ∧ read_csv sampleFS "15zpallnoagi.csv" = some ["NY", "CA", "NY"]
      ∧ get_ny_common id sampleFS "ny_no_agi.csv" "15zpallnoagi.csv"
          = Except.ok (["NY", "NY"], to_csv sampleFS "ny_no_agi.csv" ["NY", "NY"]))
      ∧ get_ny_common id (to_csv sampleFS "ny_no_agi.csv" ["NY", "NY"])
          "ny_no_agi.csv" "15zpallnoagi.csv"
        = Except.ok (["NY", "NY"], to_csv sampleFS "ny_no_agi.csv" ["NY", "NY"]) :=
  ⟨⟨by decide, by decide,
      (get_ny_common_spec id sampleFS "ny_no_agi.csv" "15zpallnoagi.csv").2
        ["NY", "CA", "NY"] (by decide) (by decide)⟩,
    (get_ny_common_spec id (to_csv sampleFS "ny_no_agi.csv" ["NY", "NY"])
        "ny_no_agi.csv" "15zpallnoagi.csv").1 ["NY", "NY"] (by decide)⟩

end NycStudy
